import Mathlib

/-!
Verification of the geometric validation and metrics engine of the
zones-mobile application.

The development embeds the relevant JavaScript source files shallowly:

* `src/utils/geometry.js` — segment intersection (`doLinesIntersect`,
  `direction`, `onSegment`) and the incremental self-intersection guard
  (`wouldIntersect`).  JavaScript numbers are modelled as rationals (the
  inputs of interest are exact decimal coordinates and the operations used
  are +, -, *, comparisons, min and max, all exact on doubles for the small
  values considered; rounding of doubles is not modelled).
* `src/utils/zoneValidation.js` — conversion of a zone record to the
  geometry handed to the external Turf library (`zoneToTurfGeometry`) and
  the overlap scan (`checkZoneOverlap`).  The Turf predicates
  `booleanOverlap` and `booleanIntersects` are external library calls and
  are taken as parameters.
* `src/utils/zoneCalculations.js` — area and centroid
  (`calculateZoneArea`, `calculateZoneCenter`), modelled over the reals
  because the code calls `Math.cos` and `Math.PI`.
* `src/hooks/useZones.js` — zone creation and update (`addZone`,
  `updateZone`), modelled as pure functions on zone records.
-/

/-! ## src/utils/geometry.js

A point is a `[lat, lng]` pair: component `.1` is index 0 (latitude) and
component `.2` is index 1 (longitude). -/

abbrev GPoint : Type := ℚ × ℚ

/-- Cross product orientation test, from `direction(p1, p2, p3)`:
`(p3[1] - p1[1]) * (p2[0] - p1[0]) - (p2[1] - p1[1]) * (p3[0] - p1[0])`. -/
def direction (p1 p2 p3 : GPoint) : ℚ :=
  (p3.2 - p1.2) * (p2.1 - p1.1) - (p2.2 - p1.2) * (p3.1 - p1.1)

/-- Bounding-box test for a collinear point, from `onSegment(p, q, r)`:
`q[0] <= max(p[0], r[0]) && q[0] >= min(p[0], r[0]) && q[1] <= max(p[1], r[1])
&& q[1] >= min(p[1], r[1])`. -/
def onSegment (p q r : GPoint) : Bool :=
  decide (q.1 ≤ max p.1 r.1 ∧ min p.1 r.1 ≤ q.1 ∧
          q.2 ≤ max p.2 r.2 ∧ min p.2 r.2 ≤ q.2)

/-- Segment intersection test from `doLinesIntersect(p1, p2, p3, p4)`:
general straddling case first, then the four collinear cases, else false. -/
def doLinesIntersect (p1 p2 p3 p4 : GPoint) : Bool :=
  let d1 := direction p3 p4 p1
  let d2 := direction p3 p4 p2
  let d3 := direction p1 p2 p3
  let d4 := direction p1 p2 p4
  if ((d1 > 0 ∧ d2 < 0) ∨ (d1 < 0 ∧ d2 > 0)) ∧
     ((d3 > 0 ∧ d4 < 0) ∨ (d3 < 0 ∧ d4 > 0)) then true
  else if d1 = 0 ∧ onSegment p3 p1 p4 = true then true
  else if d2 = 0 ∧ onSegment p3 p2 p4 = true then true
  else if d3 = 0 ∧ onSegment p1 p3 p2 = true then true
  else if d4 = 0 ∧ onSegment p1 p4 p2 = true then true
  else false

/-- The spec's `on_segment` condition: the point `q` lies coordinate-wise
between the endpoints `p` and `r`, inclusive. -/
def coordBetween (p q r : GPoint) : Prop :=
  min p.1 r.1 ≤ q.1 ∧ q.1 ≤ max p.1 r.1 ∧
  min p.2 r.2 ≤ q.2 ∧ q.2 ≤ max p.2 r.2

/-- The spec's orientation algorithm, stated as in the claim: segments share
a point iff `(d1, d2)` have strictly opposite signs and `(d3, d4)` have
strictly opposite signs, or some `dk` is zero and the corresponding point
lies coordinate-wise between the other segment's endpoints (inclusive). -/
def specSegmentsIntersect (a1 a2 b1 b2 : GPoint) : Prop :=
  let d1 := direction b1 b2 a1
  let d2 := direction b1 b2 a2
  let d3 := direction a1 a2 b1
  let d4 := direction a1 a2 b2
  (((d1 > 0 ∧ d2 < 0) ∨ (d1 < 0 ∧ d2 > 0)) ∧
   ((d3 > 0 ∧ d4 < 0) ∨ (d3 < 0 ∧ d4 > 0))) ∨
  (d1 = 0 ∧ coordBetween b1 a1 b2) ∨
  (d2 = 0 ∧ coordBetween b1 a2 b2) ∨
  (d3 = 0 ∧ coordBetween a1 b1 a2) ∨
  (d4 = 0 ∧ coordBetween a1 b2 a2)

lemma onSegment_iff (p q r : GPoint) : onSegment p q r = true ↔ coordBetween p q r := by
  unfold onSegment coordBetween
  rw [decide_eq_true_eq]
  exact ⟨fun ⟨h1, h2, h3, h4⟩ => ⟨h2, h1, h4, h3⟩, fun ⟨h1, h2, h3, h4⟩ => ⟨h2, h1, h4, h3⟩⟩

/-- C1: `doLinesIntersect` returns true exactly when the spec's
orientation-plus-collinear-overlap predicate holds: a proper straddling
crossing, or some orientation value `dk` equal to zero with the
corresponding point inside the other segment's inclusive bounding box. -/
theorem doLinesIntersect_iff_spec (a1 a2 b1 b2 : GPoint) :
    doLinesIntersect a1 a2 b1 b2 = true ↔ specSegmentsIntersect a1 a2 b1 b2 := by
  simp only [doLinesIntersect, specSegmentsIntersect]
  split_ifs with h1 h2 h3 h4 h5
  · exact iff_of_true rfl (Or.inl h1)
  · exact iff_of_true rfl (Or.inr (Or.inl ⟨h2.1, (onSegment_iff _ _ _).mp h2.2⟩))
  · exact iff_of_true rfl (Or.inr (Or.inr (Or.inl ⟨h3.1, (onSegment_iff _ _ _).mp h3.2⟩)))
  · exact iff_of_true rfl
      (Or.inr (Or.inr (Or.inr (Or.inl ⟨h4.1, (onSegment_iff _ _ _).mp h4.2⟩))))
  · exact iff_of_true rfl
      (Or.inr (Or.inr (Or.inr (Or.inr ⟨h5.1, (onSegment_iff _ _ _).mp h5.2⟩))))
  · refine iff_of_false (by simp) ?_
    rintro (h | h | h | h | h)
    exacts [h1 h, h2 ⟨h.1, (onSegment_iff _ _ _).mpr h.2⟩,
      h3 ⟨h.1, (onSegment_iff _ _ _).mpr h.2⟩, h4 ⟨h.1, (onSegment_iff _ _ _).mpr h.2⟩,
      h5 ⟨h.1, (onSegment_iff _ _ _).mpr h.2⟩]

/-! ## Self-intersection guard, `wouldIntersect` from `src/utils/geometry.js` -/

/-- Index into a point list, `pts[i]`; the claims only exercise in-bounds
accesses, so a default point stands in for JavaScript `undefined`. -/
def ptD (pts : List GPoint) (i : ℕ) : GPoint := pts.getD i (0, 0)

/-- Guard from `wouldIntersect(existingPoints, newPoint)`: fewer than two
points never intersect; otherwise the new segment (last point → candidate)
is tested against every edge `i` except `i = length - 2` (the edge being
extended), and the closing segment (candidate → first point) is tested
against every edge `i` with `1 ≤ i < length - 1` (the source loop starts at
`i = 1`, rendered here as a skip of `i = 0`). -/
def wouldIntersect (existingPoints : List GPoint) (newPoint : GPoint) : Bool :=
  if existingPoints.length < 2 then false
  else
    let lastPoint := ptD existingPoints (existingPoints.length - 1)
    let firstLoopHit := (List.range (existingPoints.length - 1)).any fun i =>
      if i = existingPoints.length - 2 then false
      else doLinesIntersect lastPoint newPoint
        (ptD existingPoints i) (ptD existingPoints (i + 1))
    let closingHit := (List.range (existingPoints.length - 1)).any fun i =>
      if i = 0 then false
      else doLinesIntersect newPoint (ptD existingPoints 0)
        (ptD existingPoints i) (ptD existingPoints (i + 1))
    firstLoopHit || closingHit

/-- Modelled from the claim's words (not from the source): identical to
`wouldIntersect` except that the closing segment is tested against exactly
the edges `2 .. length - 2` relative to index 0, as the claim states. -/
def wouldIntersectClaimed (existingPoints : List GPoint) (newPoint : GPoint) : Bool :=
  if existingPoints.length < 2 then false
  else
    let lastPoint := ptD existingPoints (existingPoints.length - 1)
    let firstLoopHit := (List.range (existingPoints.length - 1)).any fun i =>
      if i = existingPoints.length - 2 then false
      else doLinesIntersect lastPoint newPoint
        (ptD existingPoints i) (ptD existingPoints (i + 1))
    let closingHit := (List.range (existingPoints.length - 1)).any fun i =>
      if i < 2 then false
      else doLinesIntersect newPoint (ptD existingPoints 0)
        (ptD existingPoints i) (ptD existingPoints (i + 1))
    firstLoopHit || closingHit

/-- C2 counterexample: on the ring `[[0,0],[10,0],[10,10]]` with candidate
`[20,5]`, the closing segment crosses edge 1 (from `[10,0]` to `[10,10]`),
which the code does test (the source closing loop runs from edge 1), so
`wouldIntersect` returns true; under the claim's edge window
`2 .. length - 2` no edge would be tested and the result would be false. -/
theorem wouldIntersect_closing_edge_window_counterexample :
    wouldIntersect [((0 : ℚ), (0 : ℚ)), (10, 0), (10, 10)] (20, 5) = true ∧
    wouldIntersectClaimed [((0 : ℚ), (0 : ℚ)), (10, 0), (10, 10)] (20, 5) = false := by
  constructor <;>
  · norm_num [wouldIntersect, wouldIntersectClaimed, doLinesIntersect, direction, onSegment,
      ptD, List.range_succ]

lemma ite_false_guard {P : Prop} [Decidable P] (b : Bool) :
    ((if P then false else b) = true) ↔ (¬P ∧ b = true) := by
  split_ifs with h <;> simp [h]

/-- C2 amended: for a ring of at least 2 points, `wouldIntersect` accepts or
rejects exactly according to two tests — the new segment against every edge
other than `length - 2`, and the closing segment (candidate → first point)
against every edge `i` with `1 ≤ i < length - 1`, that is, every edge except
edge 0 (the edge adjacent to the first point); the edge ending at the last
point is included. -/
theorem wouldIntersect_checks_characterization (pts : List GPoint) (c : GPoint)
    (h : 2 ≤ pts.length) :
    wouldIntersect pts c = true ↔
      ((∃ i, i < pts.length - 1 ∧ ¬i = pts.length - 2 ∧
          doLinesIntersect (ptD pts (pts.length - 1)) c
            (ptD pts i) (ptD pts (i + 1)) = true) ∨
       (∃ i, i < pts.length - 1 ∧ ¬i = 0 ∧
          doLinesIntersect c (ptD pts 0) (ptD pts i) (ptD pts (i + 1)) = true)) := by
  have hlt : ¬pts.length < 2 := not_lt.mpr h
  simp only [wouldIntersect, if_neg hlt, Bool.or_eq_true, List.any_eq_true,
    List.mem_range, ite_false_guard]

/-- Witness instantiating `wouldIntersect_checks_characterization` on a
concrete three-point ring and candidate. -/
theorem wouldIntersect_checks_characterization_witness :
    2 ≤ ([((0 : ℚ), (0 : ℚ)), (10, 0), (10, 10)] : List GPoint).length ∧
    (wouldIntersect [((0 : ℚ), (0 : ℚ)), (10, 0), (10, 10)] (20, 5) = true ↔
      ((∃ i, i < ([((0 : ℚ), (0 : ℚ)), (10, 0), (10, 10)] : List GPoint).length - 1 ∧
          ¬i = ([((0 : ℚ), (0 : ℚ)), (10, 0), (10, 10)] : List GPoint).length - 2 ∧
          doLinesIntersect
            (ptD [((0 : ℚ), (0 : ℚ)), (10, 0), (10, 10)]
              (([((0 : ℚ), (0 : ℚ)), (10, 0), (10, 10)] : List GPoint).length - 1)) (20, 5)
            (ptD [((0 : ℚ), (0 : ℚ)), (10, 0), (10, 10)] i)
            (ptD [((0 : ℚ), (0 : ℚ)), (10, 0), (10, 10)] (i + 1)) = true) ∨
       (∃ i, i < ([((0 : ℚ), (0 : ℚ)), (10, 0), (10, 10)] : List GPoint).length - 1 ∧
          ¬i = 0 ∧
          doLinesIntersect (20, 5) (ptD [((0 : ℚ), (0 : ℚ)), (10, 0), (10, 10)] 0)
            (ptD [((0 : ℚ), (0 : ℚ)), (10, 0), (10, 10)] i)
            (ptD [((0 : ℚ), (0 : ℚ)), (10, 0), (10, 10)] (i + 1)) = true))) :=
  ⟨by decide, wouldIntersect_checks_characterization _ _ (by decide)⟩

/-! ## src/utils/zoneValidation.js

Zone records reaching `zoneToTurfGeometry` carry dynamically typed
coordinate data, modelled by `JSVal`: `undef` is JavaScript `undefined`,
`num` a number, `arr` an array, and `obj` an object whose only fields of
interest are `lat`, `lng`, `latitude` and `longitude` (in that order;
`none` means the field is absent).  Reading a field of a number yields
`undefined` in JavaScript, so non-matching shapes fall to the error
branches exactly as in the source. -/

inductive JSVal where
  | undef : JSVal
  | num : ℚ → JSVal
  | arr : List JSVal → JSVal
  | obj : Option ℚ → Option ℚ → Option ℚ → Option ℚ → JSVal

/-- Geometry produced for the external Turf library: `turf.circle(center,
radiusKm, {steps})` with `center = [lng, lat]`, or `turf.polygon([ring])`
with a single linear ring of positions. -/
inductive TurfGeom where
  | circle : ℚ × ℚ → ℚ → ℕ → TurfGeom
  | polygon : List (JSVal × JSVal) → TurfGeom

/-- Zone record as consumed by `zoneValidation.js`. -/
structure JZone where
  id : String
  name : String
  type : String
  coordinates : List JSVal
  radius : Option ℚ

/-- Ring-level unwrap loop shared by the polygon and rectangle branches:
`while (Array.isArray(coords[0]) && Array.isArray(coords[0][0]) &&
coords.length === 1) coords = coords[0];`. -/
def unwrapCoords : List JSVal → List JSVal
  | [.arr (.arr x :: rest)] => unwrapCoords (.arr x :: rest)
  | l => l

/-- Per-point conversion in the polygon branch of `zoneToTurfGeometry`:
an array point becomes `[point[1], point[0]]` (out-of-range indices give
`undefined`), an object with both `lat` and `lng` becomes
`[point.lng, point.lat]`, anything else is logged and mapped to `null`,
which the surrounding `.filter((p) => p !== null)` drops (rendered as
`Option.none` under `filterMap`). -/
def pointToTurfPoly : JSVal → Option (JSVal × JSVal)
  | .arr l => some (l.getD 1 .undef, l.getD 0 .undef)
  | .obj lat lng _ _ =>
    match lat, lng with
    | some la, some ln => some (.num ln, .num la)
    | _, _ => none
  | _ => none

/-- Per-point conversion in the rectangle branch: an array point is kept,
an object with `lat` and `lng` fields becomes `[point.lat, point.lng]`,
others are dropped.  An array whose first two entries are not numbers would
propagate `NaN` through the `Math.min`/`Math.max` bounds in JavaScript;
that degenerate shape is modelled as a dropped point and is exercised by no
claim. -/
def rectPointToPair : JSVal → Option (ℚ × ℚ)
  | .arr l =>
    match l.getD 0 .undef, l.getD 1 .undef with
    | .num lat, .num lng => some (lat, lng)
    | _, _ => none
  | .obj lat? lng? _ _ =>
    match lat?, lng? with
    | some lat, some lng => some (lat, lng)
    | _, _ => none
  | _ => none

/-- Strict inequality `!==` between the position components compared when
closing a polygon ring: numbers compare by value, `undefined` equals
`undefined`, and any other combination (in particular two distinct array
objects) compares unequal by reference.  The only case where the two sides
of the source comparison can be the same reference is a one-position ring,
and there both outcomes lead to a ring of fewer than 4 positions, hence to
`null`, so value semantics is faithful for the result. -/
def jsStrictNeq : JSVal → JSVal → Bool
  | .num a, .num b => decide (a ≠ b)
  | .undef, .undef => false
  | _, _ => true

/-- Conversion from `zoneToTurfGeometry(zone)`.  Failure paths returning
`none` cover both the explicit `return null` branches and the `catch`
around the Turf constructors: `turf.circle` with a malformed center or
missing radius throws, and `turf.polygon` rejects a linear ring of fewer
than 4 positions, all caught and turned into `null`. -/
def zoneToTurfGeometry (zone : JZone) : Option TurfGeom :=
  if zone.type = "circle" then
    match zone.coordinates.getD 0 .undef with
    | .arr l =>
      match l.getD 0 .undef, l.getD 1 .undef, zone.radius with
      | .num lat, .num lng, some r => some (.circle (lng, lat) (r / 1000) 64)
      | _, _, _ => none
    | .obj lat? lng? _ _ =>
      match lat?, lng?, zone.radius with
      | some lat, some lng, some r => some (.circle (lng, lat) (r / 1000) 64)
      | _, _, _ => none
    | _ => none
  else if zone.type = "polygon" then
    let turfCoords := (unwrapCoords zone.coordinates).filterMap pointToTurfPoly
    match turfCoords with
    | [] => none
    | first :: rest =>
      let lastP := (first :: rest).getLast (List.cons_ne_nil first rest)
      let closed :=
        if jsStrictNeq first.1 lastP.1 || jsStrictNeq first.2 lastP.2 then
          (first :: rest) ++ [first]
        else first :: rest
      if closed.length < 4 then none else some (.polygon closed)
  else if zone.type = "rectangle" then
    let points := (unwrapCoords zone.coordinates).filterMap rectPointToPair
    match points with
    | [] => none
    | p0 :: ps =>
      let minLat := (ps.map Prod.fst).foldl min p0.1
      let maxLat := (ps.map Prod.fst).foldl max p0.1
      let minLng := (ps.map Prod.snd).foldl min p0.2
      let maxLng := (ps.map Prod.snd).foldl max p0.2
      some (.polygon [(.num minLng, .num minLat), (.num maxLng, .num minLat),
        (.num maxLng, .num maxLat), (.num minLng, .num maxLat), (.num minLng, .num minLat)])
  else none

/-- Result record of `checkZoneOverlap`. -/
structure OverlapResult where
  hasOverlap : Bool
  overlappingZones : List JZone

/-- Per-zone test in the scan loop: a zone whose geometry fails to convert
is warned about and skipped (`continue`, rendered as `false` so the filter
drops it); otherwise `turf.booleanOverlap(...) || turf.booleanIntersects(...)`
decides membership.  The two Turf predicates are external library calls and
appear as parameters; a throw inside the `try` contributes nothing, which
coincides with both predicates returning `false`. -/
def zoneOverlapTest (booleanOverlap booleanIntersects : TurfGeom → TurfGeom → Bool)
    (newGeometry : TurfGeom) (existingZone : JZone) : Bool :=
  match zoneToTurfGeometry existingZone with
  | none => false
  | some eg => booleanOverlap newGeometry eg || booleanIntersects newGeometry eg

/-- Overlap scan from `checkZoneOverlap(newZone, existingZones)`.  The
guard `!newZone || !existingZones || existingZones.length === 0` is
modelled with `Option` (objects are always truthy, `null`/`undefined`
falsy); the loop that pushes each matching zone is rendered as a filter in
loop order. -/
def checkZoneOverlap (booleanOverlap booleanIntersects : TurfGeom → TurfGeom → Bool)
    (newZone : Option JZone) (existingZones : Option (List JZone)) : OverlapResult :=
  match newZone, existingZones with
  | none, _ => ⟨false, []⟩
  | some _, none => ⟨false, []⟩
  | some nz, some ez =>
    if ez.length = 0 then ⟨false, []⟩
    else
      match zoneToTurfGeometry nz with
      | none => ⟨false, []⟩
      | some g =>
        let overlapping := ez.filter (zoneOverlapTest booleanOverlap booleanIntersects g)
        ⟨decide (0 < overlapping.length), overlapping⟩

lemma filter_middle_false {α : Type} (p : α → Bool) (pre post : List α) (b : α)
    (hb : p b = false) :
    (pre ++ b :: post).filter p = (pre ++ post).filter p := by
  simp [List.filter_append, List.filter_cons, hb]

lemma decide_pos_length {α : Type} (l : List α) : decide (0 < l.length) = !l.isEmpty := by
  cases l <;> simp

/-- C6: during an overlap scan, an existing zone whose geometry fails to
convert is skipped and the scan continues: the scan over
`pre ++ [bad] ++ post` returns exactly the scan over `pre ++ post`, and
when the candidate converts, the reported zones are exactly the convertible
zones of the remaining list that pass the Turf test. -/
theorem checkZoneOverlap_skips_unconvertible
    (bo bi : TurfGeom → TurfGeom → Bool) (nz bad : JZone) (pre post : List JZone)
    (hbad : zoneToTurfGeometry bad = none) :
    checkZoneOverlap bo bi (some nz) (some (pre ++ bad :: post)) =
      checkZoneOverlap bo bi (some nz) (some (pre ++ post)) ∧
    ∀ g, zoneToTurfGeometry nz = some g →
      (checkZoneOverlap bo bi (some nz) (some (pre ++ bad :: post))).overlappingZones =
        (pre ++ post).filter (zoneOverlapTest bo bi g) := by
  have htest : ∀ g, zoneOverlapTest bo bi g bad = false := by
    intro g; simp [zoneOverlapTest, hbad]
  have hfil : ∀ g, (pre ++ bad :: post).filter (zoneOverlapTest bo bi g) =
      (pre ++ post).filter (zoneOverlapTest bo bi g) := by
    intro g; exact filter_middle_false _ _ _ _ (htest g)
  have hne : ¬(pre ++ bad :: post).length = 0 := by simp
  constructor
  · by_cases hpp : (pre ++ post).length = 0
    · have hpre : pre = [] ∧ post = [] := by
        constructor <;> [skip; skip] <;> cases pre <;> cases post <;> simp_all
      obtain ⟨h1, h2⟩ := hpre
      subst h1; subst h2
      cases hg : zoneToTurfGeometry nz with
      | none => simp [checkZoneOverlap, hg]
      | some g => simp [checkZoneOverlap, hg, htest g]
    · cases hg : zoneToTurfGeometry nz with
      | none => simp [checkZoneOverlap, hne, hpp, hg]
      | some g =>
        simp only [checkZoneOverlap, hg, if_neg hne, if_neg hpp, hfil g]
  · intro g hg
    simp [checkZoneOverlap, hne, hg, hfil g]

/-- Witness instantiating `checkZoneOverlap_skips_unconvertible`: one
convertible candidate, an unconvertible existing zone (unknown type tag),
and empty rest of the list. -/
theorem checkZoneOverlap_skips_unconvertible_witness :
    checkZoneOverlap (fun _ _ => true) (fun _ _ => true)
      (some ⟨"cand", "C", "polygon",
        [.arr [.num 0, .num 0], .arr [.num 0, .num 1], .arr [.num 1, .num 0]], none⟩)
      (some ([] ++ ⟨"b", "B", "blob", [], none⟩ :: [])) =
    checkZoneOverlap (fun _ _ => true) (fun _ _ => true)
      (some ⟨"cand", "C", "polygon",
        [.arr [.num 0, .num 0], .arr [.num 0, .num 1], .arr [.num 1, .num 0]], none⟩)
      (some ([] ++ [])) ∧
    (checkZoneOverlap (fun _ _ => true) (fun _ _ => true)
      (some ⟨"cand", "C", "polygon",
        [.arr [.num 0, .num 0], .arr [.num 0, .num 1], .arr [.num 1, .num 0]], none⟩)
      (some ([] ++ ⟨"b", "B", "blob", [], none⟩ :: []))).overlappingZones =
    ([] ++ []).filter (zoneOverlapTest (fun _ _ => true) (fun _ _ => true)
      (.polygon [(.num 0, .num 0), (.num 1, .num 0), (.num 0, .num 1), (.num 0, .num 0)])) :=
  ⟨(checkZoneOverlap_skips_unconvertible _ _ _ _ _ _ (by simp [zoneToTurfGeometry])).1,
   (checkZoneOverlap_skips_unconvertible _ _ _ _ _ _ (by simp [zoneToTurfGeometry])).2 _
     (by simp [zoneToTurfGeometry, unwrapCoords, pointToTurfPoly, jsStrictNeq])⟩

/-- C7 counterexample: the `overlapping` field of the result is not the
sequence of zone ids.  Two scans over single-zone lists whose zones agree
in id (and in geometry, so the Turf outcome is identical) but differ in
name produce results with identical id sequences yet unequal results,
because the code pushes the whole zone record, not its id. -/
theorem checkZoneOverlap_zone_records_counterexample :
    ((checkZoneOverlap (fun _ _ => true) (fun _ _ => true)
        (some ⟨"cand", "C", "polygon",
          [.arr [.num 0, .num 0], .arr [.num 0, .num 1], .arr [.num 1, .num 0]], none⟩)
        (some [⟨"z1", "A", "polygon",
          [.arr [.num 0, .num 0], .arr [.num 0, .num 1], .arr [.num 1, .num 0]],
          none⟩])).overlappingZones.map JZone.id =
      (checkZoneOverlap (fun _ _ => true) (fun _ _ => true)
        (some ⟨"cand", "C", "polygon",
          [.arr [.num 0, .num 0], .arr [.num 0, .num 1], .arr [.num 1, .num 0]], none⟩)
        (some [⟨"z1", "B", "polygon",
          [.arr [.num 0, .num 0], .arr [.num 0, .num 1], .arr [.num 1, .num 0]],
          none⟩])).overlappingZones.map JZone.id) ∧
    checkZoneOverlap (fun _ _ => true) (fun _ _ => true)
      (some ⟨"cand", "C", "polygon",
        [.arr [.num 0, .num 0], .arr [.num 0, .num 1], .arr [.num 1, .num 0]], none⟩)
      (some [⟨"z1", "A", "polygon",
        [.arr [.num 0, .num 0], .arr [.num 0, .num 1], .arr [.num 1, .num 0]], none⟩]) ≠
    checkZoneOverlap (fun _ _ => true) (fun _ _ => true)
      (some ⟨"cand", "C", "polygon",
        [.arr [.num 0, .num 0], .arr [.num 0, .num 1], .arr [.num 1, .num 0]], none⟩)
      (some [⟨"z1", "B", "polygon",
        [.arr [.num 0, .num 0], .arr [.num 0, .num 1], .arr [.num 1, .num 0]], none⟩]) := by
  constructor
  · simp [checkZoneOverlap, zoneToTurfGeometry, unwrapCoords, pointToTurfPoly,
      jsStrictNeq, zoneOverlapTest]
  · intro h
    simp [checkZoneOverlap, zoneToTurfGeometry, unwrapCoords, pointToTurfPoly,
      jsStrictNeq, zoneOverlapTest] at h

/-- C7 amended: for a convertible candidate, the result's `hasOverlap`
field is the boolean saying the `overlappingZones` field is nonempty, and
`overlappingZones` is the sequence of the full records of the existing
zones found to overlap — the zone ids are recovered from it by projecting
the `id` field, but the field itself holds the records. -/
theorem checkZoneOverlap_result_shape
    (bo bi : TurfGeom → TurfGeom → Bool) (nz : JZone) (ez : List JZone) (g : TurfGeom)
    (hg : zoneToTurfGeometry nz = some g) :
    (checkZoneOverlap bo bi (some nz) (some ez)).hasOverlap =
      !(checkZoneOverlap bo bi (some nz) (some ez)).overlappingZones.isEmpty ∧
    (checkZoneOverlap bo bi (some nz) (some ez)).overlappingZones =
      ez.filter (zoneOverlapTest bo bi g) ∧
    (checkZoneOverlap bo bi (some nz) (some ez)).overlappingZones.map JZone.id =
      (ez.filter (zoneOverlapTest bo bi g)).map JZone.id := by
  cases ez with
  | nil => simp [checkZoneOverlap]
  | cons a l =>
    have hne : ¬(a :: l).length = 0 := by simp
    simp only [checkZoneOverlap, hg, if_neg hne, decide_pos_length]
    simp

/-- Witness instantiating `checkZoneOverlap_result_shape` on a concrete
convertible candidate and a one-zone list. -/
theorem checkZoneOverlap_result_shape_witness :
    (checkZoneOverlap (fun _ _ => true) (fun _ _ => true)
      (some ⟨"cand", "C", "polygon",
        [.arr [.num 0, .num 0], .arr [.num 0, .num 1], .arr [.num 1, .num 0]], none⟩)
      (some [⟨"z1", "A", "polygon",
        [.arr [.num 0, .num 0], .arr [.num 0, .num 1], .arr [.num 1, .num 0]],
        none⟩])).hasOverlap =
      !(checkZoneOverlap (fun _ _ => true) (fun _ _ => true)
        (some ⟨"cand", "C", "polygon",
          [.arr [.num 0, .num 0], .arr [.num 0, .num 1], .arr [.num 1, .num 0]], none⟩)
        (some [⟨"z1", "A", "polygon",
          [.arr [.num 0, .num 0], .arr [.num 0, .num 1], .arr [.num 1, .num 0]],
          none⟩])).overlappingZones.isEmpty ∧
    (checkZoneOverlap (fun _ _ => true) (fun _ _ => true)
      (some ⟨"cand", "C", "polygon",
        [.arr [.num 0, .num 0], .arr [.num 0, .num 1], .arr [.num 1, .num 0]], none⟩)
      (some [⟨"z1", "A", "polygon",
        [.arr [.num 0, .num 0], .arr [.num 0, .num 1], .arr [.num 1, .num 0]],
        none⟩])).overlappingZones =
      [⟨"z1", "A", "polygon",
        [.arr [.num 0, .num 0], .arr [.num 0, .num 1], .arr [.num 1, .num 0]],
        none⟩].filter (zoneOverlapTest (fun _ _ => true) (fun _ _ => true)
        (.polygon [(.num 0, .num 0), (.num 1, .num 0), (.num 0, .num 1), (.num 0, .num 0)])) ∧
    (checkZoneOverlap (fun _ _ => true) (fun _ _ => true)
      (some ⟨"cand", "C", "polygon",
        [.arr [.num 0, .num 0], .arr [.num 0, .num 1], .arr [.num 1, .num 0]], none⟩)
      (some [⟨"z1", "A", "polygon",
        [.arr [.num 0, .num 0], .arr [.num 0, .num 1], .arr [.num 1, .num 0]],
        none⟩])).overlappingZones.map JZone.id =
      ([⟨"z1", "A", "polygon",
        [.arr [.num 0, .num 0], .arr [.num 0, .num 1], .arr [.num 1, .num 0]],
        none⟩].filter (zoneOverlapTest (fun _ _ => true) (fun _ _ => true)
        (.polygon [(.num 0, .num 0), (.num 1, .num 0), (.num 0, .num 1),
          (.num 0, .num 0)]))).map JZone.id :=
  checkZoneOverlap_result_shape _ _ _ _ _
    (by simp [zoneToTurfGeometry, unwrapCoords, pointToTurfPoly, jsStrictNeq])

/-- C10: the overlap check fails open — a `null` candidate, a `null` or
empty existing-zone list, or a candidate whose geometry does not convert
all yield `hasOverlap = false` with an empty `overlappingZones` list rather
than an error. -/
theorem checkZoneOverlap_fails_open (bo bi : TurfGeom → TurfGeom → Bool) :
    (∀ ez, checkZoneOverlap bo bi none ez = ⟨false, []⟩) ∧
    (∀ nz, checkZoneOverlap bo bi nz none = ⟨false, []⟩) ∧
    (∀ nz, checkZoneOverlap bo bi (some nz) (some []) = ⟨false, []⟩) ∧
    (∀ nz ez, zoneToTurfGeometry nz = none →
      checkZoneOverlap bo bi (some nz) ez = ⟨false, []⟩) := by
  refine ⟨fun ez => rfl, fun nz => ?_, fun nz => rfl, fun nz ez h => ?_⟩
  · cases nz <;> rfl
  · cases ez with
    | none => rfl
    | some l =>
      cases l with
      | nil => rfl
      | cons a t => simp [checkZoneOverlap, h]

/-- Witness instantiating `checkZoneOverlap_fails_open`, with an existing
zone list for each guard and an unconvertible candidate (unknown type tag)
for the last conjunct. -/
theorem checkZoneOverlap_fails_open_witness :
    checkZoneOverlap (fun _ _ => true) (fun _ _ => true) none
      (some [⟨"z1", "A", "polygon", [.arr [.num 0, .num 0]], none⟩]) = ⟨false, []⟩ ∧
    checkZoneOverlap (fun _ _ => true) (fun _ _ => true)
      (some ⟨"b", "B", "blob", [], none⟩) none = ⟨false, []⟩ ∧
    checkZoneOverlap (fun _ _ => true) (fun _ _ => true)
      (some ⟨"b", "B", "blob", [], none⟩) (some []) = ⟨false, []⟩ ∧
    checkZoneOverlap (fun _ _ => true) (fun _ _ => true)
      (some ⟨"b", "B", "blob", [], none⟩)
      (some [⟨"z1", "A", "polygon", [.arr [.num 0, .num 0]], none⟩]) = ⟨false, []⟩ :=
  ⟨(checkZoneOverlap_fails_open _ _).1 _,
   (checkZoneOverlap_fails_open _ _).2.1 _,
   (checkZoneOverlap_fails_open _ _).2.2.1 _,
   (checkZoneOverlap_fails_open _ _).2.2.2 _ _ (by simp [zoneToTurfGeometry])⟩

/-- C4 counterexample: the four raw point encodings are not all normalized
to the identical canonical point by the polygon ingestion in
`zoneToTurfGeometry`: the `{latitude, longitude}` object is rejected
(mapped to `null` and dropped), and a one-element array wrapping a point is
not unwrapped at the point level — it produces `[undefined, innerArray]`
instead of the canonical pair. -/
theorem pointToTurf_encodings_counterexample :
    pointToTurfPoly (.obj none none (some 45.8) (some 16)) = none ∧
    pointToTurfPoly (.arr [.num 45.8, .num 16]) = some (.num 16, .num 45.8) ∧
    pointToTurfPoly (.arr [.arr [.num 45.8, .num 16]]) ≠
      pointToTurfPoly (.arr [.num 45.8, .num 16]) := by
  refine ⟨rfl, rfl, ?_⟩
  intro h
  simp [pointToTurfPoly] at h

/-- C4 amended: the ordered pair `[lat, lng]` and the `{lat, lng}` object
normalize to the identical canonical Turf point; the `{latitude, longitude}`
object is rejected (the point is dropped with an error, not converted); and
singleton-array unwrapping happens only at the ring level, where the
unwrap loop strips one wrapper from a singly-nested ring. -/
theorem pointToTurf_encodings (lat lng : ℚ) :
    pointToTurfPoly (.arr [.num lat, .num lng]) = some (.num lng, .num lat) ∧
    pointToTurfPoly (.obj (some lat) (some lng) none none) = some (.num lng, .num lat) ∧
    pointToTurfPoly (.obj none none (some lat) (some lng)) = none ∧
    unwrapCoords [.arr [.arr [.num lat, .num lng]]] = [.arr [.num lat, .num lng]] := by
  refine ⟨rfl, rfl, rfl, ?_⟩
  simp [unwrapCoords]

/-! ## src/utils/zoneCalculations.js

Areas and centroids are modelled over the reals because the source calls
`Math.cos` and `Math.PI`.  The coordinates here are the flat ring of
`[lat, lng]` pairs: the ring-level unwrap loop at the top of each branch
(the same loop as `unwrapCoords`) is the identity on flat rings, and every
claim about this module speaks of flat vertex lists. -/

/-- Zone record as consumed by `zoneCalculations.js`. -/
structure CalcZone where
  type : String
  coordinates : List (ℝ × ℝ)
  radius : Option ℝ

/-- Shoelace accumulation loop of the polygon branch:
`for (i = 0; i < coords.length; i++) { j = (i+1) % coords.length;
area += lng_i * lat_j - lng_j * lat_i }`, rendered as a range sum. -/
noncomputable def shoelaceRaw (c : List (ℝ × ℝ)) : ℝ :=
  ∑ i in Finset.range c.length,
    ((c.getD i (0, 0)).2 * (c.getD ((i + 1) % c.length) (0, 0)).1 -
     (c.getD ((i + 1) % c.length) (0, 0)).2 * (c.getD i (0, 0)).1)

/-- Mean latitude of the ring vertices:
`coords.reduce((sum, coord) => sum + coord[0], 0) / coords.length`.
JavaScript produces `NaN` for an empty ring (0/0); real division gives 0
instead, and the claims restrict attention to non-empty rings. -/
noncomputable def ringAvgLat (c : List (ℝ × ℝ)) : ℝ :=
  (c.map Prod.fst).sum / c.length

/-- Polygon branch of `calculateZoneArea`: `area = |raw / 2|`, then
`area * 111000 * (111000 * cos(avgLat * π / 180))`. -/
noncomputable def polygonAreaMeters (c : List (ℝ × ℝ)) : ℝ :=
  |shoelaceRaw c / 2| * 111000 * (111000 * Real.cos (ringAvgLat c * Real.pi / 180))

/-- Rectangle branch of `calculateZoneArea`: axis-aligned bounding box of
the first four vertices (`Math.min`/`Math.max` over the four latitudes and
longitudes), `heightM = |maxLat - minLat| * 111000`,
`widthM = |maxLng - minLng| * 111000 * cos(avgLat * π / 180)` with
`avgLat = (minLat + maxLat) / 2`, area `heightM * widthM`. -/
noncomputable def rectangleAreaMeters (c : List (ℝ × ℝ)) : ℝ :=
  let lat1 := min (min (min (c.getD 0 (0, 0)).1 (c.getD 1 (0, 0)).1)
    (c.getD 2 (0, 0)).1) (c.getD 3 (0, 0)).1
  let lat2 := max (max (max (c.getD 0 (0, 0)).1 (c.getD 1 (0, 0)).1)
    (c.getD 2 (0, 0)).1) (c.getD 3 (0, 0)).1
  let lng1 := min (min (min (c.getD 0 (0, 0)).2 (c.getD 1 (0, 0)).2)
    (c.getD 2 (0, 0)).2) (c.getD 3 (0, 0)).2
  let lng2 := max (max (max (c.getD 0 (0, 0)).2 (c.getD 1 (0, 0)).2)
    (c.getD 2 (0, 0)).2) (c.getD 3 (0, 0)).2
  let latDiff := |lat2 - lat1|
  let lngDiff := |lng2 - lng1|
  let avgLat := (lat1 + lat2) / 2
  let heightM := latDiff * 111000
  let widthM := lngDiff * 111000 * Real.cos (avgLat * Real.pi / 180)
  heightM * widthM

/-- Area from `calculateZoneArea(zone)`.  A circle with an absent or zero
radius is falsy in `zone.type === 'circle' && zone.radius`, falls through
the two remaining type tests (both false for type `circle`) and reaches
`return null`. -/
noncomputable def calculateZoneArea (zone : CalcZone) : Option ℝ :=
  if zone.type = "circle" then
    match zone.radius with
    | some r => if r = 0 then none else some (Real.pi * r * r)
    | none => none
  else if zone.type = "rectangle" then some (rectangleAreaMeters zone.coordinates)
  else if zone.type = "polygon" then some (polygonAreaMeters zone.coordinates)
  else none

/-- Centroid from `calculateZoneCenter(zone)`: the circle's stored center,
or the arithmetic mean of the ring vertices for rectangle and polygon
(one shared branch in the source). -/
noncomputable def calculateZoneCenter (zone : CalcZone) : Option (ℝ × ℝ) :=
  if zone.type = "circle" then some (zone.coordinates.getD 0 (0, 0))
  else if zone.type = "rectangle" ∨ zone.type = "polygon" then
    some ((zone.coordinates.map Prod.fst).sum / zone.coordinates.length,
          (zone.coordinates.map Prod.snd).sum / zone.coordinates.length)
  else none

/-- The claim's formula for the polygon area, written as in the spec:
`raw = Σ (lng_i * lat_(i+1) - lng_(i+1) * lat_i)` with indices wrapping
around the ring, `raw_area = |raw| / 2`, multiplied by
`meters_per_deg_lat = 111000` and by
`meters_per_deg_lng = 111000 * cos(avg_lat_in_radians)` where `avg_lat` is
the arithmetic mean latitude of the ring vertices. -/
noncomputable def specShoelaceAreaMeters (ring : List (ℝ × ℝ)) : ℝ :=
  let n := ring.length
  let raw := ∑ i in Finset.range n,
    ((ring.getD i (0, 0)).2 * (ring.getD ((i + 1) % n) (0, 0)).1 -
     (ring.getD ((i + 1) % n) (0, 0)).2 * (ring.getD i (0, 0)).1)
  let avgLat := (ring.map Prod.fst).sum / n
  |raw| / 2 * 111000 * (111000 * Real.cos (avgLat * Real.pi / 180))

lemma calculateZoneArea_polygon (c : List (ℝ × ℝ)) (r : Option ℝ) :
    calculateZoneArea ⟨"polygon", c, r⟩ = some (polygonAreaMeters c) := by
  simp [calculateZoneArea]

lemma calculateZoneArea_rectangle (c : List (ℝ × ℝ)) (r : Option ℝ) :
    calculateZoneArea ⟨"rectangle", c, r⟩ = some (rectangleAreaMeters c) := by
  simp [calculateZoneArea]

/-- C3: for a polygon zone with a non-empty flat ring, `calculateZoneArea`
returns exactly the spec's shoelace formula: the absolute wrapped shoelace
sum halved, scaled by 111000 and by `111000 * cos` of the mean latitude in
radians. -/
theorem calculateZoneArea_polygon_is_shoelace (ring : List (ℝ × ℝ)) (r : Option ℝ)
    (_hne : ring ≠ []) :
    calculateZoneArea ⟨"polygon", ring, r⟩ = some (specShoelaceAreaMeters ring) := by
  rw [calculateZoneArea_polygon]
  congr 1
  unfold polygonAreaMeters specShoelaceAreaMeters shoelaceRaw ringAvgLat
  rw [abs_div]
  norm_num

/-- Witness instantiating `calculateZoneArea_polygon_is_shoelace` on a
concrete triangle. -/
theorem calculateZoneArea_polygon_is_shoelace_witness :
    ([((0 : ℝ), (0 : ℝ)), (0, 1), (1, 0)] : List (ℝ × ℝ)) ≠ [] ∧
    calculateZoneArea ⟨"polygon", [((0 : ℝ), (0 : ℝ)), (0, 1), (1, 0)], none⟩ =
      some (specShoelaceAreaMeters [((0 : ℝ), (0 : ℝ)), (0, 1), (1, 0)]) :=
  ⟨by simp, calculateZoneArea_polygon_is_shoelace _ _ (by simp)⟩

lemma cyclic_sum_reindex (n k : ℕ) (g : ℕ → ℝ) :
    ∑ i in Finset.range n, g ((i + k) % n) = ∑ i in Finset.range n, g i := by
  rcases n with _ | m
  · simp
  · rw [← Fin.sum_univ_eq_sum_range (fun i => g ((i + k) % (m + 1))) (m + 1),
        ← Fin.sum_univ_eq_sum_range g (m + 1)]
    have key : ∀ i : Fin (m + 1),
        g ((i.val + k) % (m + 1)) =
          (fun j : Fin (m + 1) => g j.val) (Equiv.addRight (⟨k % (m + 1), Nat.mod_lt _ (Nat.succ_pos m)⟩ : Fin (m + 1)) i) := by
      intro i
      simp only [Equiv.coe_addRight]
      congr 1
      rw [Fin.val_add]
      conv_lhs => rw [Nat.add_mod]
      conv_rhs => rw [Nat.add_mod, Nat.mod_mod_of_dvd k dvd_rfl]
    calc ∑ i : Fin (m + 1), g ((i.val + k) % (m + 1))
        = ∑ i : Fin (m + 1), (fun j : Fin (m + 1) => g j.val)
            (Equiv.addRight (⟨k % (m + 1), Nat.mod_lt _ (Nat.succ_pos m)⟩ : Fin (m + 1)) i) :=
          Finset.sum_congr rfl fun i _ => key i
      _ = ∑ i : Fin (m + 1), g i.val :=
          Equiv.sum_comp (Equiv.addRight _) (fun j : Fin (m + 1) => g j.val)

noncomputable def shoelaceTermAt (c : List (ℝ × ℝ)) (j : ℕ) : ℝ :=
  (c.getD (j % c.length) (0, 0)).2 * (c.getD ((j + 1) % c.length) (0, 0)).1 -
  (c.getD ((j + 1) % c.length) (0, 0)).2 * (c.getD (j % c.length) (0, 0)).1

lemma shoelaceTermAt_mod (c : List (ℝ × ℝ)) (j : ℕ) :
    shoelaceTermAt c (j % c.length) = shoelaceTermAt c j := by
  unfold shoelaceTermAt
  rw [Nat.mod_mod_of_dvd j dvd_rfl, Nat.mod_add_mod]

lemma shoelaceRaw_eq_sum_termAt (c : List (ℝ × ℝ)) :
    shoelaceRaw c = ∑ i in Finset.range c.length, shoelaceTermAt c i := by
  unfold shoelaceRaw shoelaceTermAt
  refine Finset.sum_congr rfl fun i hi => ?_
  rw [Finset.mem_range] at hi
  rw [Nat.mod_eq_of_lt hi]

lemma getD_rotate (c : List (ℝ × ℝ)) (k j : ℕ) (hj : j < c.length) :
    (c.rotate k).getD j (0, 0) = c.getD ((j + k) % c.length) (0, 0) := by
  have hpos : 0 < c.length := Nat.pos_of_ne_zero (by intro h; rw [h] at hj; exact Nat.not_lt_zero _ hj)
  rw [List.getD_eq_getElem _ _ (by rw [List.length_rotate]; exact hj),
      List.getElem_rotate, List.getD_eq_getElem _ _ (Nat.mod_lt _ hpos)]

lemma shoelaceRaw_rotate (c : List (ℝ × ℝ)) (k : ℕ) :
    shoelaceRaw (c.rotate k) = shoelaceRaw c := by
  rcases eq_or_ne c.length 0 with h0 | hn
  · obtain rfl := List.length_eq_zero.mp h0
    simp
  · have hpos : 0 < c.length := Nat.pos_of_ne_zero hn
    rw [shoelaceRaw_eq_sum_termAt, shoelaceRaw_eq_sum_termAt, List.length_rotate]
    have hterm : ∀ i ∈ Finset.range c.length,
        shoelaceTermAt (c.rotate k) i = shoelaceTermAt c ((i + k) % c.length) := by
      intro i hi
      rw [Finset.mem_range] at hi
      unfold shoelaceTermAt
      rw [List.length_rotate]
      rw [getD_rotate c k (i % c.length) (Nat.mod_lt _ hpos),
          getD_rotate c k ((i + 1) % c.length) (Nat.mod_lt _ hpos)]
      rw [Nat.mod_add_mod, Nat.mod_add_mod]
      rw [Nat.mod_mod_of_dvd (i + k) dvd_rfl, Nat.mod_add_mod]
      have e1 : i + 1 + k = i + k + 1 := by omega
      rw [e1]
    rw [Finset.sum_congr rfl hterm]
    exact cyclic_sum_reindex c.length k (shoelaceTermAt c)

lemma getD_reverse (c : List (ℝ × ℝ)) (j : ℕ) (hj : j < c.length) :
    c.reverse.getD j (0, 0) = c.getD (c.length - 1 - j) (0, 0) := by
  rw [List.getD_eq_getElem _ _ (by rw [List.length_reverse]; exact hj),
      List.getElem_reverse, List.getD_eq_getElem _ _ (by omega)]

lemma shoelaceRaw_reverse (c : List (ℝ × ℝ)) :
    shoelaceRaw c.reverse = -shoelaceRaw c := by
  rcases eq_or_ne c.length 0 with h0 | hn
  · obtain rfl := List.length_eq_zero.mp h0
    simp [shoelaceRaw]
  · have hpos : 0 < c.length := Nat.pos_of_ne_zero hn
    rw [shoelaceRaw_eq_sum_termAt, shoelaceRaw_eq_sum_termAt, List.length_reverse]
    rw [← cyclic_sum_reindex c.length (c.length - 1) (shoelaceTermAt c)]
    rw [← Finset.sum_neg_distrib]
    rw [← Finset.sum_range_reflect (fun i => shoelaceTermAt c.reverse i) c.length]
    refine Finset.sum_congr rfl fun i hi => ?_
    rw [Finset.mem_range] at hi
    unfold shoelaceTermAt
    rw [List.length_reverse]
    rw [Nat.mod_mod_of_dvd (i + (c.length - 1)) dvd_rfl, Nat.mod_add_mod]
    have hA : (c.length - 1 - i) % c.length = c.length - 1 - i := Nat.mod_eq_of_lt (by omega)
    have hAB : c.length - 1 - i + 1 = c.length - i := by omega
    rw [hA, hAB]
    rcases Nat.eq_zero_or_pos i with rfl | hip
    · have e1 : c.length - 0 = c.length := by omega
      rw [e1, Nat.mod_self]
      rw [getD_reverse c (c.length - 1 - 0) (by omega), getD_reverse c 0 hpos]
      have e2 : (0 + (c.length - 1)) % c.length = c.length - 1 := by
        rw [Nat.zero_add]
        exact Nat.mod_eq_of_lt (by omega)
      have e3 : (0 + (c.length - 1) + 1) % c.length = 0 := by
        have e : 0 + (c.length - 1) + 1 = c.length := by omega
        rw [e, Nat.mod_self]
      rw [e2, e3]
      have e4 : c.length - 1 - (c.length - 1 - 0) = 0 := by omega
      have e5 : c.length - 1 - 0 = c.length - 1 := by omega
      rw [e4, e5]
      ring
    · have e1 : (c.length - i) % c.length = c.length - i := Nat.mod_eq_of_lt (by omega)
      rw [e1]
      rw [getD_reverse c (c.length - 1 - i) (by omega), getD_reverse c (c.length - i) (by omega)]
      have e2 : (i + (c.length - 1)) % c.length = i - 1 := by
        have e : i + (c.length - 1) = (i - 1) + c.length := by omega
        rw [e, Nat.add_mod_right, Nat.mod_eq_of_lt (by omega)]
      have e3 : (i + (c.length - 1) + 1) % c.length = i := by
        have e : i + (c.length - 1) + 1 = i + c.length := by omega
        rw [e, Nat.add_mod_right, Nat.mod_eq_of_lt hi]
      rw [e2, e3]
      have e4 : c.length - 1 - (c.length - 1 - i) = i := by omega
      have e5 : c.length - 1 - (c.length - i) = i - 1 := by omega
      rw [e4, e5]
      ring

lemma ringAvgLat_rotate (c : List (ℝ × ℝ)) (k : ℕ) :
    ringAvgLat (c.rotate k) = ringAvgLat c := by
  unfold ringAvgLat
  rw [List.length_rotate, List.Perm.sum_eq ((List.rotate_perm c k).map Prod.fst)]

lemma ringAvgLat_reverse (c : List (ℝ × ℝ)) :
    ringAvgLat c.reverse = ringAvgLat c := by
  unfold ringAvgLat
  rw [List.length_reverse, List.Perm.sum_eq ((List.reverse_perm c).map Prod.fst)]

lemma polygonAreaMeters_rotate (c : List (ℝ × ℝ)) (k : ℕ) :
    polygonAreaMeters (c.rotate k) = polygonAreaMeters c := by
  unfold polygonAreaMeters
  rw [shoelaceRaw_rotate, ringAvgLat_rotate]

lemma polygonAreaMeters_reverse (c : List (ℝ × ℝ)) :
    polygonAreaMeters c.reverse = polygonAreaMeters c := by
  unfold polygonAreaMeters
  rw [shoelaceRaw_reverse, ringAvgLat_reverse, neg_div, abs_neg]

/-- C9: the polygon area computed by `calculateZoneArea` is invariant under
any cyclic rotation of the vertex list and under reversal of the vertex
order: the sign of the shoelace sum is discarded by the absolute value and
the mean-latitude scale factor is permutation-invariant.  Proved for every
ring, which subsumes the simple (non-self-intersecting) ones the claim
speaks about. -/
theorem calculateZoneArea_rotate_reverse_invariant (ring : List (ℝ × ℝ)) (k : ℕ)
    (r : Option ℝ) :
    calculateZoneArea ⟨"polygon", ring.rotate k, r⟩ =
      calculateZoneArea ⟨"polygon", ring, r⟩ ∧
    calculateZoneArea ⟨"polygon", ring.reverse, r⟩ =
      calculateZoneArea ⟨"polygon", ring, r⟩ := by
  rw [calculateZoneArea_polygon, calculateZoneArea_polygon, calculateZoneArea_polygon,
      polygonAreaMeters_rotate, polygonAreaMeters_reverse]
  exact ⟨rfl, rfl⟩

/-- C5 counterexample: a rotated quadrilateral (a diamond) gets a
different area under the `rectangle` type tag than under `polygon`: the
rectangle branch measures the axis-aligned bounding box (degree area 4)
while the polygon branch measures the shoelace area (degree area 2), and
the common positive scale factor keeps them apart. -/
theorem rectangle_vs_polygon_area_counterexample :
    calculateZoneArea ⟨"rectangle", [((0 : ℝ), (0 : ℝ)), (1, 1), (2, 0), (1, -1)], none⟩ ≠
    calculateZoneArea ⟨"polygon", [((0 : ℝ), (0 : ℝ)), (1, 1), (2, 0), (1, -1)], none⟩ := by
  have hcos : 0 < Real.cos (Real.pi / 180) := by
    apply Real.cos_pos_of_mem_Ioo
    constructor
    · nlinarith [Real.pi_pos]
    · nlinarith [Real.pi_pos]
  rw [calculateZoneArea_rectangle, calculateZoneArea_polygon]
  intro h
  rw [Option.some_inj] at h
  unfold rectangleAreaMeters polygonAreaMeters shoelaceRaw ringAvgLat at h
  norm_num [Finset.sum_range_succ, min_def, max_def, abs_of_nonneg] at h
  nlinarith [hcos, h]

/-- C5 amended: the `rectangle` type tag is not processed identically to
`polygon` in every operation — the centroid computation is the same shared
branch for every coordinate list, and the area agrees whenever the four
vertices form an axis-aligned rectangle listed as
`[(a,lo), (b,lo), (b,hi), (a,hi)]` with `a ≤ b`, `lo ≤ hi` (the bounding
box is then the quadrilateral itself); for rotated quadrilaterals the
rectangle branch uses the bounding box and diverges, both in area and in
the overlap geometry it builds. -/
theorem rectangle_polygon_agreement (coords : List (ℝ × ℝ)) (r : Option ℝ)
    (a b lo hi : ℝ) (hab : a ≤ b) (hlh : lo ≤ hi) :
    calculateZoneCenter ⟨"rectangle", coords, r⟩ =
      calculateZoneCenter ⟨"polygon", coords, r⟩ ∧
    calculateZoneArea ⟨"rectangle", [(a, lo), (b, lo), (b, hi), (a, hi)], none⟩ =
      calculateZoneArea ⟨"polygon", [(a, lo), (b, lo), (b, hi), (a, hi)], none⟩ := by
  constructor
  · simp [calculateZoneCenter]
  · rw [calculateZoneArea_rectangle, calculateZoneArea_polygon]
    congr 1
    unfold rectangleAreaMeters polygonAreaMeters shoelaceRaw ringAvgLat
    have h1 : min (min (min a b) b) a = a := by
      rw [min_eq_left hab, min_eq_left hab, min_self]
    have h2 : max (max (max a b) b) a = b := by
      rw [max_eq_right hab, max_self, max_eq_left hab]
    have h3 : min (min (min lo lo) hi) hi = lo := by
      rw [min_self, min_eq_left hlh, min_eq_left hlh]
    have h4 : max (max (max lo lo) hi) hi = hi := by
      rw [max_self, max_eq_right hlh, max_self]
    simp only [List.getD_cons_zero, List.getD_cons_succ, List.length_cons, List.length_nil,
      List.map_cons, List.map_nil, List.sum_cons, List.sum_nil, Finset.sum_range_succ,
      Finset.sum_range_zero]
    rw [h1, h2, h3, h4]
    rw [abs_of_nonneg (by linarith : (0 : ℝ) ≤ b - a), abs_of_nonneg (by linarith : (0 : ℝ) ≤ hi - lo)]
    norm_num
    have harg : (a + (b + (b + a))) / (4 : ℝ) * Real.pi / 180 =
        (a + b) / 2 * Real.pi / 180 := by ring
    rw [harg]
    have habs : |(lo * b - lo * a + (lo * b - hi * b) + (hi * a - hi * b) + (hi * a - lo * a)) / 2| =
        (b - a) * (hi - lo) := by
      rw [show (lo * b - lo * a + (lo * b - hi * b) + (hi * a - hi * b) + (hi * a - lo * a)) / 2 =
        -((b - a) * (hi - lo)) from by ring, abs_neg,
        abs_of_nonneg (by nlinarith : (0 : ℝ) ≤ (b - a) * (hi - lo))]
    rw [habs]
    ring

/-! ## src/hooks/useZones.js

`addZone` and `updateZone` are modelled as pure functions on zone records.
`addZone` builds `{ id, ...zoneData, area, center, createdAt }`: because the
computed `area`/`center` keys come after the spread, they override any
caller-supplied values (modelled by `ZoneData` carrying optional
caller-supplied `area`/`center` that `addZone` ignores).  `updateZone` maps
`{ ...zone, ...updates }` over the list for the matching id; an absent
field in `ZoneUpdates` (`none`) leaves the stored field unchanged, and the
function never recomputes `area` or `center` (its doc comment reads `Does
NOT recalculate area/center`). -/

/-- Argument record of `addZone(zoneData)`. -/
structure ZoneData where
  name : String
  color : String
  colorHex : String
  type : String
  coordinates : List (ℝ × ℝ)
  radius : Option ℝ
  area : Option ℝ
  center : Option (ℝ × ℝ)

def ZoneData.shape (d : ZoneData) : CalcZone := ⟨d.type, d.coordinates, d.radius⟩

/-- Persisted zone record produced by `addZone`. -/
structure StoredZone where
  id : String
  name : String
  color : String
  colorHex : String
  type : String
  coordinates : List (ℝ × ℝ)
  radius : Option ℝ
  area : Option ℝ
  center : Option (ℝ × ℝ)
  createdAt : String

noncomputable def addZone (zoneData : ZoneData) (id createdAt : String) : StoredZone :=
  { id := id, name := zoneData.name, color := zoneData.color, colorHex := zoneData.colorHex,
    type := zoneData.type, coordinates := zoneData.coordinates, radius := zoneData.radius,
    area := calculateZoneArea zoneData.shape,
    center := calculateZoneCenter zoneData.shape,
    createdAt := createdAt }

/-- Update object passed to `updateZone(id, updates)`; `none` marks an
absent key. -/
structure ZoneUpdates where
  name : Option String
  color : Option String
  colorHex : Option String
  coordinates : Option (List (ℝ × ℝ))
  radius : Option ℝ
  area : Option ℝ
  center : Option (ℝ × ℝ)

def applyUpdates (zone : StoredZone) (u : ZoneUpdates) : StoredZone :=
  { id := zone.id
    name := u.name.getD zone.name
    color := u.color.getD zone.color
    colorHex := u.colorHex.getD zone.colorHex
    type := zone.type
    coordinates := u.coordinates.getD zone.coordinates
    radius := match u.radius with | some r => some r | none => zone.radius
    area := match u.area with | some a => some a | none => zone.area
    center := match u.center with | some c => some c | none => zone.center
    createdAt := zone.createdAt }

def updateZone (zones : List StoredZone) (id : String) (updates : ZoneUpdates) :
    List StoredZone :=
  zones.map fun zone => if zone.id = id then applyUpdates zone updates else zone

/-- C8 amended: `area` and `center` are derived at creation — `addZone`
stores exactly the engine-computed values, overriding any caller-supplied
ones — and `updateZone` never recomputes them: any update whose `area` and
`center` keys are absent (in particular a name/color-only update, but also
a coordinates update) leaves every stored area and centroid unchanged. -/
theorem zone_metrics_derivation (d : ZoneData) (id createdAt : String)
    (zones : List StoredZone) (zid : String) (u : ZoneUpdates)
    (hua : u.area = none) (huc : u.center = none) :
    (addZone d id createdAt).area = calculateZoneArea d.shape ∧
    (addZone d id createdAt).center = calculateZoneCenter d.shape ∧
    (updateZone zones zid u).map StoredZone.area = zones.map StoredZone.area ∧
    (updateZone zones zid u).map StoredZone.center = zones.map StoredZone.center := by
  refine ⟨rfl, rfl, ?_, ?_⟩ <;>
  · unfold updateZone
    rw [List.map_map]
    refine List.map_congr_left fun z hz => ?_
    by_cases h : z.id = zid <;> simp [applyUpdates, h, hua, huc]

/-- C8 counterexample: an update that changes the zone's shape geometry
does not get its area recomputed.  A zone created on one triangle and then
updated to a taller triangle keeps the stored area of the original
triangle, which differs from the area derived from its new geometry. -/
theorem updateZone_stale_area_counterexample :
    (updateZone
        [addZone ⟨"A", "blue", "#00f", "polygon", [((-1 : ℝ), (0 : ℝ)), (1, 0), (0, 2)],
          none, none, none⟩ "z1" "t0"]
        "z1" ⟨none, none, none, some [((-1 : ℝ), (0 : ℝ)), (1, 0), (0, 4)], none, none,
          none⟩).map StoredZone.coordinates =
      [[((-1 : ℝ), (0 : ℝ)), (1, 0), (0, 4)]] ∧
    (updateZone
        [addZone ⟨"A", "blue", "#00f", "polygon", [((-1 : ℝ), (0 : ℝ)), (1, 0), (0, 2)],
          none, none, none⟩ "z1" "t0"]
        "z1" ⟨none, none, none, some [((-1 : ℝ), (0 : ℝ)), (1, 0), (0, 4)], none, none,
          none⟩).map StoredZone.area ≠
      [calculateZoneArea ⟨"polygon", [((-1 : ℝ), (0 : ℝ)), (1, 0), (0, 4)], none⟩] := by
  constructor
  · simp [updateZone, applyUpdates, addZone]
  · simp only [updateZone, applyUpdates, addZone, List.map_cons, List.map_nil]
    intro h
    rw [List.cons_eq_cons] at h
    obtain ⟨h1, -⟩ := h
    rw [if_pos trivial] at h1
    replace h1 : calculateZoneArea
        (ZoneData.shape ⟨"A", "blue", "#00f", "polygon",
          [((-1 : ℝ), (0 : ℝ)), (1, 0), (0, 2)], none, none, none⟩) =
        calculateZoneArea ⟨"polygon", [((-1 : ℝ), (0 : ℝ)), (1, 0), (0, 4)], none⟩ := h1
    simp only [ZoneData.shape] at h1
    rw [calculateZoneArea_polygon, calculateZoneArea_polygon, Option.some_inj] at h1
    unfold polygonAreaMeters shoelaceRaw ringAvgLat at h1
    norm_num [Finset.sum_range_succ, Real.cos_zero] at h1

/-- Witness instantiating `rectangle_polygon_agreement` on a one-point
coordinate list and the unit square. -/
theorem rectangle_polygon_agreement_witness :
    calculateZoneCenter ⟨"rectangle", [((2 : ℝ), (3 : ℝ))], none⟩ =
      calculateZoneCenter ⟨"polygon", [((2 : ℝ), (3 : ℝ))], none⟩ ∧
    calculateZoneArea ⟨"rectangle", [((0 : ℝ), (0 : ℝ)), (1, 0), (1, 1), (0, 1)], none⟩ =
      calculateZoneArea ⟨"polygon", [((0 : ℝ), (0 : ℝ)), (1, 0), (1, 1), (0, 1)], none⟩ :=
  rectangle_polygon_agreement [((2 : ℝ), (3 : ℝ))] none 0 1 0 1 (by norm_num) (by norm_num)

/-- Witness instantiating `zone_metrics_derivation`: creation with
caller-supplied area and center values (ignored in favour of the derived
ones) and a name-only update. -/
theorem zone_metrics_derivation_witness :
    (addZone ⟨"A", "blue", "#00f", "polygon", [((0 : ℝ), (0 : ℝ))], none, some 999,
        some (5, 5)⟩ "z1" "t0").area =
      calculateZoneArea (ZoneData.shape
        ⟨"A", "blue", "#00f", "polygon", [((0 : ℝ), (0 : ℝ))], none, some 999, some (5, 5)⟩) ∧
    (addZone ⟨"A", "blue", "#00f", "polygon", [((0 : ℝ), (0 : ℝ))], none, some 999,
        some (5, 5)⟩ "z1" "t0").center =
      calculateZoneCenter (ZoneData.shape
        ⟨"A", "blue", "#00f", "polygon", [((0 : ℝ), (0 : ℝ))], none, some 999, some (5, 5)⟩) ∧
    (updateZone [] "z" ⟨some "N", none, none, none, none, none, none⟩).map StoredZone.area =
      ([] : List StoredZone).map StoredZone.area ∧
    (updateZone [] "z" ⟨some "N", none, none, none, none, none, none⟩).map StoredZone.center =
      ([] : List StoredZone).map StoredZone.center :=
  zone_metrics_derivation _ "z1" "t0" [] "z" _ rfl rfl
